import Mathlib

/-
Verification of the job-automation script (src/main.py).

The script drives a browser over a task-management web application.  The
parts with program logic are embedded here:

  * the job tracker (load_job_tracker / save_job_tracker, lines 52-79),
    modelled over an abstract state of the tracker file;
  * email validation (is_valid_email line 94, and the acceptance test of
    check_email_field_content line 120);
  * the fill operation paste_email (lines 163-205), modelled over the
    read-back values the field reports after each write transport;
  * the page-wide search search_aroflo_email_in_page (lines 207-218),
    whose Python regex is compiled here into an executable matcher;
  * the per-task decision procedure of the main loop (lines 273-379),
    modelled as a function of an abstract per-task environment that
    records which remote operations succeed and what the page contains.

Remote UI primitives (clicks, waits) are abstracted into boolean success
flags and observed values; the control flow around them is translated
branch by branch from the source.
-/

-- ===================== Job tracker (main.py lines 52-79) =====================

def DEFAULT_START_JOB_ID : Int := 3411

/-- Abstract state of the tracker file job_tracker.json: absent on disk,
present but unreadable or unparseable, or parsed as a JSON object whose
integer-valued entries are listed. -/
inductive TrackerFile where
  | absent : TrackerFile
  | corrupt : TrackerFile
  | valid : List (String × Int) → TrackerFile

/-- Lookup of a key in a parsed JSON object (models dict.get). -/
def lookupVal (k : String) : List (String × Int) → Option Int
  | [] => none
  | (k2, v) :: rest => if k2 = k then some v else lookupVal k rest

/-- Models json.load inside the try block of load_job_tracker: raises
(returns an error) when the file cannot be read or parsed. -/
def json_load : TrackerFile → Except String (List (String × Int))
  | TrackerFile.absent => Except.error ("file not found")
  | TrackerFile.corrupt => Except.error ("invalid JSON")
  | TrackerFile.valid es => Except.ok es

/-- load_job_tracker (lines 55-70).  The os.path.exists check handles the
absent file; the try/except turns any read or parse error into the
default; a parsed object missing the key last_index also yields the
default (lines 60-62). -/
def load_job_tracker : TrackerFile → Int
  | TrackerFile.absent => DEFAULT_START_JOB_ID
  | f =>
    match json_load f with
    | Except.ok es =>
      match lookupVal ("last_index") es with
      | some n => n
      | none => DEFAULT_START_JOB_ID
    | Except.error _ => DEFAULT_START_JOB_ID

/-- save_job_tracker (lines 72-79).  writeOk models whether the file write
raises; on failure the exception is caught and the file is unchanged. -/
def save_job_tracker (index : Int) (writeOk : Bool) (f : TrackerFile) : TrackerFile :=
  if writeOk then TrackerFile.valid [("last_index", index)] else f

-- ===================== Email validation (lines 94-132) =====================

/-- The character class [a-zA-Z0-9._%+-] of the local part of the regex in
is_valid_email (line 98). -/
def isLocalChar (c : Char) : Bool :=
  c.isAlpha || c.isDigit || c = '.' || c = '_' || c = '%' || c = '+' || c = '-'

/-- The character class [a-zA-Z0-9.-] of the domain part of the same regex. -/
def isDomainChar (c : Char) : Bool :=
  c.isAlpha || c.isDigit || c = '.' || c = '-'

/-- Python str.strip(): drop whitespace from both ends. -/
def pyStrip (cs : List Char) : List Char :=
  ((cs.dropWhile Char.isWhitespace).reverse.dropWhile Char.isWhitespace).reverse

def pyStripStr (s : String) : String :=
  String.mk (pyStrip s.data)

/-- Full match of the anchored regex of is_valid_email,
r-caret-[a-zA-Z0-9._%+-]+@[a-zA-Z0-9.-]+\.[a-zA-Z]\x7b2,\x7d-dollar,
on a character list.  The backtracking search is determinised: since the
at-sign is in neither class, the local part of any match is exactly the
maximal prefix of local-part characters; the trailing letter block of any
match must be the maximal alphabetic suffix of the remainder, because the
character just before it in a match is a dot, which is not alphabetic. -/
def matchEmailChars (cs : List Char) : Bool :=
  let l := cs.takeWhile isLocalChar
  let rest := cs.drop l.length
  match rest with
  | '@' :: r =>
    !l.isEmpty &&
    (let rev := r.reverse
     let t := rev.takeWhile Char.isAlpha
     decide (2 ≤ t.length) &&
     (match rev.drop t.length with
      | '.' :: d => !d.isEmpty && d.all isDomainChar
      | _ => false))
  | _ => false

/-- is_valid_email (lines 94-99): false on the empty string, otherwise the
regex is matched against the stripped text. -/
def is_valid_email (text : String) : Bool :=
  if text.data.isEmpty then false
  else matchEmailChars (pyStrip text.data)

/-- The acceptance test of check_email_field_content, line 120: a stripped
field value counts as an existing email iff it is a valid email and is not
one of the placeholder strings. -/
def acceptedEmailValue (s : String) : Bool :=
  is_valid_email s && !(s = "on" || s = "off" || s = "true" || s = "false")

/-- check_email_field_content (lines 101-132), as a function of the list of
values successfully read from the candidate fields (selectors that fail to
resolve are simply absent from the list, matching the inner
try/except/continue).  Returns the first stripped value that passes the
acceptance test, none otherwise. -/
def check_email_field_content : List String → Option String
  | [] => none
  | v :: rest =>
    let s := pyStripStr v
    if acceptedEmailValue s then some s else check_email_field_content rest

-- ===================== Fill operation paste_email (lines 163-205) =====================

/-- Abstract behaviour of the target field for one paste_email call:
whether get_email_field resolves a field, and the value the field reports
when read back after the direct send_keys write (line 181) and after the
clipboard paste (line 195). -/
structure FieldEnv where
  fieldFound : Bool
  afterDirect : String
  afterPaste : String

/-- paste_email (lines 163-205).  Returns the boolean result together with
the number of clipboard-paste attempts performed.  Control flow from the
source: missing field returns false with no attempt; a matching read-back
after the direct write (stripped, line 182) returns true with no clipboard
attempt; otherwise the clipboard transport runs once and the result is
decided by the second read-back (line 196).  All failures are returned as
false, never raised: the body is one try/except returning false. -/
def paste_email (env : FieldEnv) (email : String) : Bool × Nat :=
  if env.fieldFound = false then (false, 0)
  else if pyStripStr env.afterDirect = email then (true, 0)
  else if pyStripStr env.afterPaste = email then (true, 1)
  else (false, 1)

-- ===================== Page search (lines 207-218) =====================

/-
search_aroflo_email_in_page runs
re.findall(r-word-boundary-[A-Za-z0-9._%+-]+@[A-Za-z0-9.-]*\.aroflo\.com-word-boundary, page)
and returns the first match or None.  The regex is compiled below into an
executable matcher: matchAt attempts a match at one start position
(returning the end position), scanPos finds the leftmost matching start,
as re.findall does.  The character classes of this regex coincide with
isLocalChar and isDomainChar above.
-/

/-- Word characters for the word-boundary assertion of the regex. -/
def isWordChar (c : Char) : Bool :=
  c.isAlpha || c.isDigit || c = '_'

/-- Word boundary at position i of cs: the previous character (none at the
start) and the next character (none at the end) differ in wordness. -/
def boundaryAt (cs : List Char) (i : Nat) : Bool :=
  let prevW := match i with
    | 0 => false
    | j + 1 => match cs[j]? with | some c => isWordChar c | none => false
  let nextW := match cs[i]? with | some c => isWordChar c | none => false
  prevW != nextW

/-- The literal tail of the regex. -/
def aroTail : List Char := ".aroflo.com".data

/-- Does the literal .aroflo.com followed by a word boundary match at
position q of cs? -/
def tryTail (cs : List Char) (q : Nat) : Bool :=
  ((cs.drop q).take 11 = aroTail : Bool) &&
  (match cs[q + 11]? with | some c => !isWordChar c | none => true)

/-- Greedy backtracking of the domain star: try the tail at p + j,
p + j - 1, ..., p (largest first, as the greedy star does); return the end
position of the whole match. -/
def findJ (cs : List Char) (p : Nat) : Nat → Option Nat
  | 0 => if tryTail cs p then some (p + 11) else none
  | j + 1 =>
    if tryTail cs (p + (j + 1)) then some (p + (j + 1) + 11)
    else findJ cs p j

/-- Match of the whole regex at start position i of cs, returning the end
position (exclusive).  Since the at-sign is in neither character class,
the local part of a match is exactly the maximal run of local characters
at i; the domain star then backtracks greedily via findJ. -/
def matchAt (cs : List Char) (i : Nat) : Option Nat :=
  if boundaryAt cs i = false then none
  else
    let k := ((cs.drop i).takeWhile isLocalChar).length
    if k = 0 then none
    else if (cs.drop i)[k]? = some '@' then
      findJ cs (i + k + 1) (((cs.drop (i + k + 1)).takeWhile isDomainChar).length)
    else none

/-- Scan start positions i, i+1, ... (fuel many) for the first match, as
re.findall finds the leftmost match first. -/
def scanPos (cs : List Char) : Nat → Nat → Option (Nat × Nat)
  | _, 0 => none
  | i, fuel + 1 =>
    match matchAt cs i with
    | some e => some (i, e)
    | none => scanPos cs (i + 1) fuel

/-- search_aroflo_email_in_page (lines 207-218): the first regex match in
the page source, or none when there is no match (the function returns
None rather than raising; its body is one try/except returning None). -/
def search_aroflo_email_in_page (page : String) : Option String :=
  match scanPos page.data 0 (page.data.length + 1) with
  | some (i, e) => some (String.mk ((page.data.drop i).take (e - i)))
  | none => none

-- ===================== Main loop (lines 265-379) =====================

/-- The list of job ids attempted by the per-task loop, line 274:
range(last_index, first_row_job_id + 1). -/
def loopIds (lastIndex firstRowJobId : Int) : List Int :=
  (List.range (firstRowJobId + 1 - lastIndex).toNat).map (fun (k : Nat) => lastIndex + (k : Int))

/-- Abstract remote environment met when one job id is processed.  Each
field records the outcome of one interaction of the per-task body:
  found            - the row lookup of line 278 finds the task;
  openOk           - the link click of lines 283-284 succeeds (it is not
                     individually guarded, so a failure escapes to the
                     per-task handler of line 377);
  installer        - is_installer_checkin_task (line 288) reports true;
  fieldValues      - the field values read by check_email_field_content;
  closeOk          - the close click (lines 290/298/372) succeeds;
  workflowOk       - the workflow click of line 308 succeeds;
  search1          - search_aroflo_email_in_page result at line 315;
  createOk         - the Create button of lines 326-330 is found and clicked;
  search2          - the search result at line 335 after Create;
  saveBtnOk        - the update button of lines 361-363 is found and clicked. -/
structure TaskEnv where
  found : Bool
  openOk : Bool
  installer : Bool
  fieldValues : List String
  closeOk : Bool
  workflowOk : Bool
  search1 : Option String
  createOk : Bool
  search2 : Option String
  saveBtnOk : Bool

/-- Observable outcome of processing one job id:
  saves       - the watermark values passed to save_job_tracker ([] or [id]);
  pastes      - the values handed to paste_email, i.e. every attempted
                mutation of the email field;
  savedRemote - whether the remote save button was clicked;
  closed      - whether the detail view was closed. -/
structure TaskOutcome where
  saves : List Int
  pastes : List String
  savedRemote : Bool
  closed : Bool

/-- The per-task body, lines 277-379, translated branch by branch.
Missing row: continue with no tracker update (lines 279-281).  Failed link
click: the exception escapes to the handler of line 377, so nothing
happens.  Installer-checkin (lines 288-292) and existing-email
(lines 294-300) skips close the view and then save the watermark; the
close click is not guarded there, so when it fails the exception escapes
and the save of lines 291/299 is never reached.  Otherwise the fill
workflow of lines 302-357 runs: the first page search (line 315) is
consulted; failing that, the Create path runs only when the workflow
click succeeded, and every arm that finds no generated value pastes the
default literal; then the remote save (lines 360-367, guarded) and the
tracker save of line 369 run unconditionally, and the final close of
lines 371-375 is guarded. -/
def processTask (e : TaskEnv) (jobId : Int) : TaskOutcome :=
  if e.found = false then ⟨[], [], false, false⟩
  else if e.openOk = false then ⟨[], [], false, false⟩
  else if e.installer then
    (if e.closeOk then ⟨[jobId], [], false, true⟩ else ⟨[], [], false, false⟩)
  else
    match check_email_field_content e.fieldValues with
    | some _ =>
      (if e.closeOk then ⟨[jobId], [], false, true⟩ else ⟨[], [], false, false⟩)
    | none =>
      let pastes :=
        match e.search1 with
        | some em => [em]
        | none =>
          if e.workflowOk then
            (if e.createOk then
              (match e.search2 with
               | some em2 => [em2]
               | none => ["default@aroflo.com"])
             else ["default@aroflo.com"])
          else ["default@aroflo.com"]
      ⟨[jobId], pastes, e.saveBtnOk, e.closeOk⟩

/-- A task completes steps 1-6 (and hence reaches the tracker save of
line 291, 299 or 369) exactly when it is found, opened, and any skip-path
close succeeds. -/
def steppedThrough (e : TaskEnv) : Bool :=
  e.found && e.openOk &&
    (if e.installer then e.closeOk
     else
       match check_email_field_content e.fieldValues with
       | some _ => e.closeOk
       | none => true)

/-- The watermark values passed to save_job_tracker over a whole run, in
order, as a function of the per-id environment. -/
def runSaves (env : Int → TaskEnv) (w maxId : Int) : List Int :=
  (loopIds w maxId).flatMap (fun id => (processTask (env id) id).saves)

/-- The tracker file at the end of a run whose writes all succeed. -/
def runFile (env : Int → TaskEnv) (w maxId : Int) (f0 : TrackerFile) : TrackerFile :=
  (runSaves env w maxId).foldl (fun f n => save_job_tracker n true f) f0

-- ===================== Claim theorems =====================

/-- C3: neither tracker operation raises: load_job_tracker returns the
default 3411 when the state file is absent and when it cannot be read or
parsed (both functions are total and return plain values rather than
errors), and save_job_tracker on a failed write swallows the failure,
leaving the file unchanged and returning normally. -/
theorem tracker_no_raise_defaults_c3 :
    load_job_tracker TrackerFile.absent = 3411 ∧
    load_job_tracker TrackerFile.corrupt = 3411 ∧
    ∀ (n : Int) (f : TrackerFile), save_job_tracker n false f = f :=
  ⟨rfl, rfl, fun _ _ => rfl⟩

/-- C4: for every integer n, save_job_tracker n (with a successful write)
followed by load_job_tracker on the resulting state file returns exactly
n, whatever the previous state of the file. -/
theorem tracker_roundtrip_c4 :
    ∀ (n : Int) (f : TrackerFile),
      load_job_tracker (save_job_tracker n true f) = n :=
  fun _ _ => rfl

/-- C10: when the state file exists and parses as valid JSON but the
object carries no last_index key, load_job_tracker returns the configured
default 3411. -/
theorem tracker_missing_key_c10 :
    ∀ (es : List (String × Int)),
      lookupVal ("last_index") es = none →
      load_job_tracker (TrackerFile.valid es) = 3411 := by
  intro es h
  simp [load_job_tracker, json_load, h, DEFAULT_START_JOB_ID]

theorem tracker_missing_key_c10_wit :
    load_job_tracker (TrackerFile.valid [("other", 7)]) = 3411 :=
  tracker_missing_key_c10 [("other", 7)] (by decide)

/-- C2: is_valid_email accepts a.b+tag@sub.domain.co and rejects
not-an-email, the empty string, on, and true; and a field value is
accepted by check_email_field_content (line 120) only if it is a valid
email and is none of the placeholder strings on, off, true, false. -/
theorem email_validity_c2 :
    is_valid_email ("a.b+tag@sub.domain.co") = true ∧
    is_valid_email ("not-an-email") = false ∧
    is_valid_email ("") = false ∧
    is_valid_email ("on") = false ∧
    is_valid_email ("true") = false ∧
    ∀ v : String, acceptedEmailValue v = true →
      is_valid_email v = true ∧ v ≠ "on" ∧ v ≠ "off" ∧ v ≠ "true" ∧ v ≠ "false" := by
  refine ⟨by decide, by decide, by decide, by decide, by decide, ?_⟩
  intro v h
  simp [acceptedEmailValue] at h
  tauto

theorem email_validity_c2_wit :
    is_valid_email ("a.b+tag@sub.domain.co") = true ∧
    ("a.b+tag@sub.domain.co" : String) ≠ "on" ∧
    ("a.b+tag@sub.domain.co" : String) ≠ "off" ∧
    ("a.b+tag@sub.domain.co" : String) ≠ "true" ∧
    ("a.b+tag@sub.domain.co" : String) ≠ "false" :=
  email_validity_c2.2.2.2.2.2 ("a.b+tag@sub.domain.co") (by decide)

/-- C6: in paste_email, when the field is found but the read-back after
the direct write differs from the intended value, the clipboard transport
is attempted exactly once, and the operation then succeeds exactly when
the second read-back matches; on mismatch it declares failure by
returning false to the caller rather than raising. -/
theorem paste_fallback_once_c6 :
    ∀ (env : FieldEnv) (email : String),
      env.fieldFound = true →
      pyStripStr env.afterDirect ≠ email →
      (paste_email env email).2 = 1 ∧
      ((paste_email env email).1 = true ↔ pyStripStr env.afterPaste = email) := by
  intro env email hf hd
  by_cases hp : pyStripStr env.afterPaste = email <;>
    simp [paste_email, hf, hd, hp]

theorem paste_fallback_once_c6_wit :
    (paste_email ⟨true, "wrong", "good@x.co"⟩ ("good@x.co")).2 = 1 ∧
    ((paste_email ⟨true, "wrong", "good@x.co"⟩ ("good@x.co")).1 = true ↔
      pyStripStr ("good@x.co") = "good@x.co") :=
  paste_fallback_once_c6 ⟨true, "wrong", "good@x.co"⟩ ("good@x.co") rfl (by decide)

/-- C1 counterexample: the claim says every attempted job id is strictly
greater than the loaded watermark w; but with a persisted watermark 3411
and first-row id 3412 the loop attempts 3411 itself, which is not
strictly greater than 3411 — the loop of line 274 starts at last_index
inclusive. -/
theorem loop_first_id_equals_watermark_c1_cex :
    (3411 : Int) ∈ loopIds 3411 3412 ∧ ¬((3411 : Int) > 3411) := by decide

/-- C1 (amended): every job id attempted by the per-task loop is greater
than or equal to the loaded watermark w; the id recorded as last handled
is itself re-attempted. -/
theorem loop_ids_ge_watermark_c1 :
    ∀ (w maxId id : Int), id ∈ loopIds w maxId → w ≤ id := by
  intro w maxId id h
  simp [loopIds] at h
  obtain ⟨k, _, rfl⟩ := h
  omega

theorem loop_ids_ge_watermark_c1_wit :
    (3412 : Int) ∈ loopIds 3411 3412 ∧ (3411 : Int) ≤ 3412 :=
  ⟨by decide, loop_ids_ge_watermark_c1 3411 3412 3412 (by decide)⟩

/-- C5 counterexample: the claim says every skipped task has its detail
view closed and its id persisted as the watermark; but in the skip paths
the close click of lines 290/298 precedes the tracker save and is not
guarded, so when it fails the exception escapes to the per-task handler
and the watermark is not saved: an Installer Checkin task 3420 whose
close click fails produces no save and no close. -/
theorem skip_close_failure_c5_cex :
    (processTask ⟨true, true, true, [], false, true, none, true, none, true⟩ 3420).saves = [] ∧
    (processTask ⟨true, true, true, [], false, true, none, true, none, true⟩ 3420).closed = false := by
  decide

/-- C5 (amended): for every task skipped by the decision procedure
(excluded Installer Checkin type, or an email field already holding an
accepted value), no field mutation is performed and the remote save
button is not clicked; and provided the detail-view close action
succeeds, the view is closed and the persisted watermark becomes that
task's job id. -/
theorem skip_frame_c5 :
    ∀ (e : TaskEnv) (jobId : Int),
      e.found = true → e.openOk = true →
      (e.installer = true ∨ (check_email_field_content e.fieldValues).isSome = true) →
      (processTask e jobId).pastes = [] ∧
      (processTask e jobId).savedRemote = false ∧
      (e.closeOk = true →
        (processTask e jobId).closed = true ∧ (processTask e jobId).saves = [jobId]) := by
  intro e jobId hf ho hskip
  by_cases hi : e.installer
  · by_cases hc : e.closeOk <;> simp [processTask, hf, ho, hi, hc]
  · rcases hskip with hskip | hskip
    · exact absurd hskip (by simpa using hi)
    · obtain ⟨v, hv⟩ := Option.isSome_iff_exists.mp hskip
      by_cases hc : e.closeOk <;> simp [processTask, hf, ho, hi, hv, hc]

theorem skip_frame_c5_wit :
    (processTask ⟨true, true, true, [], true, true, none, true, none, true⟩ 3420).pastes = [] ∧
    (processTask ⟨true, true, true, [], true, true, none, true, none, true⟩ 3420).savedRemote = false ∧
    (processTask ⟨true, true, true, [], true, true, none, true, none, true⟩ 3420).closed = true ∧
    (processTask ⟨true, true, true, [], true, true, none, true, none, true⟩ 3420).saves = [3420] := by
  have h := skip_frame_c5 ⟨true, true, true, [], true, true, none, true, none, true⟩ 3420
    rfl rfl (Or.inl rfl)
  exact ⟨h.1, h.2.1, (h.2.2 rfl).1, (h.2.2 rfl).2⟩

/-- C7: in the fill workflow, whenever no generated value is found by
either page-wide search, the fallback literal default@aroflo.com is the
value written into the target field, whatever the outcomes of the
workflow click and of the Create action; the watermark still becomes the
task's job id. -/
theorem default_fallback_c7 :
    ∀ (e : TaskEnv) (jobId : Int),
      e.found = true → e.openOk = true → e.installer = false →
      check_email_field_content e.fieldValues = none →
      e.search1 = none → e.search2 = none →
      (processTask e jobId).pastes = ["default@aroflo.com"] ∧
      (processTask e jobId).saves = [jobId] := by
  intro e jobId hf ho hi hcheck hs1 hs2
  by_cases hw : e.workflowOk <;> by_cases hc : e.createOk <;>
    simp [processTask, hf, ho, hi, hcheck, hs1, hs2, hw, hc]

theorem default_fallback_c7_wit :
    (processTask ⟨true, true, false, [], true, false, none, false, none, true⟩ 3423).pastes =
      ["default@aroflo.com"] ∧
    (processTask ⟨true, true, false, [], true, false, none, false, none, true⟩ 3423).saves =
      [3423] :=
  default_fallback_c7 ⟨true, true, false, [], true, false, none, false, none, true⟩ 3423
    rfl rfl rfl rfl rfl rfl

-- Helper lemmas for the run-level watermark invariant.

theorem processTask_saves_eq (e : TaskEnv) (jobId : Int) :
    (processTask e jobId).saves = if steppedThrough e then [jobId] else [] := by
  rcases e with ⟨found, openOk, installer, fieldValues, closeOk, workflowOk, s1, createOk, s2, saveBtnOk⟩
  cases found <;> cases openOk <;> cases installer <;> cases closeOk <;>
    simp [processTask, steppedThrough] <;>
    cases hcheck : check_email_field_content fieldValues <;> simp [hcheck]

theorem flatMap_saves_eq_filter (l : List Int) (env : Int → TaskEnv) :
    l.flatMap (fun id => (processTask (env id) id).saves) =
      l.filter (fun id => steppedThrough (env id)) := by
  induction l with
  | nil => rfl
  | cons a t ih =>
    rw [List.flatMap_cons, ih, processTask_saves_eq]
    by_cases h : steppedThrough (env a) <;> simp [List.filter_cons, h]

theorem loopIds_pairwise_lt (w maxId : Int) : (loopIds w maxId).Pairwise (· < ·) := by
  unfold loopIds
  rw [List.pairwise_map]
  refine List.Pairwise.imp ?_ (List.pairwise_lt_range _)
  intro a b hab
  have hab2 : a < b := hab
  show w + (a : Int) < w + (b : Int)
  omega

theorem foldl_save_load (l : List Int) :
    ∀ f0 : TrackerFile,
      load_job_tracker (l.foldl (fun f n => save_job_tracker n true f) f0) =
        (match l.getLast? with
         | some n => n
         | none => load_job_tracker f0) := by
  induction l with
  | nil => intro f0; rfl
  | cons a t ih =>
    intro f0
    cases t with
    | nil => rfl
    | cons b t' =>
      rw [List.foldl_cons, ih, List.getLast?_cons_cons]
      cases hbl : (b :: t').getLast? with
      | some n => rfl
      | none => simp at hbl

/-- C8: across any single run, the sequence of watermark values passed to
save_job_tracker is monotonically non-decreasing; it consists exactly of
the attempted ids that were fully stepped through (found, opened, and any
skip-path close succeeding); and the watermark that ends up persisted is
the last fully stepped-through id (the prior state when there is none),
not necessarily the last id attempted. -/
theorem watermark_monotone_c8 :
    ∀ (env : Int → TaskEnv) (w maxId : Int) (f0 : TrackerFile),
      (runSaves env w maxId).Pairwise (· ≤ ·) ∧
      runSaves env w maxId =
        (loopIds w maxId).filter (fun id => steppedThrough (env id)) ∧
      load_job_tracker (runFile env w maxId f0) =
        (match (runSaves env w maxId).getLast? with
         | some n => n
         | none => load_job_tracker f0) := by
  intro env w maxId f0
  have hfilter : runSaves env w maxId =
      (loopIds w maxId).filter (fun id => steppedThrough (env id)) :=
    flatMap_saves_eq_filter _ _
  refine ⟨?_, hfilter, foldl_save_load _ f0⟩
  rw [hfilter]
  exact List.Pairwise.imp le_of_lt
    (List.Pairwise.sublist (List.filter_sublist _) (loopIds_pairwise_lt w maxId))

-- Helper lemmas for the page-wide search.

theorem findJ_some (cs : List Char) (p : Nat) :
    ∀ (j e : Nat), findJ cs p j = some e →
      ∃ q, p ≤ q ∧ tryTail cs q = true ∧ e = q + 11 := by
  intro j
  induction j with
  | zero =>
    intro e h
    simp only [findJ] at h
    split at h
    · rename_i ht
      exact ⟨p, Nat.le_refl p, ht, (Option.some_inj.mp h).symm⟩
    · cases h
  | succ j ih =>
    intro e h
    simp only [findJ] at h
    split at h
    · rename_i ht
      exact ⟨p + (j + 1), Nat.le_add_right p (j + 1), ht, (Option.some_inj.mp h).symm⟩
    · exact ih e h

theorem matchAt_some (cs : List Char) (i e : Nat) (h : matchAt cs i = some e) :
    ∃ q, i ≤ q ∧ tryTail cs q = true ∧ e = q + 11 := by
  simp only [matchAt] at h
  split at h
  · cases h
  · split at h
    · cases h
    · split at h
      · obtain ⟨q, hq1, hq2, hq3⟩ := findJ_some cs _ _ _ h
        exact ⟨q, by omega, hq2, hq3⟩
      · cases h

theorem tryTail_take (cs : List Char) (q : Nat) (h : tryTail cs q = true) :
    (cs.drop q).take 11 = aroTail := by
  simp only [tryTail, Bool.and_eq_true, decide_eq_true_eq] at h
  exact h.1

theorem slice_tail_suffix (cs : List Char) (i q : Nat) (hiq : i ≤ q)
    (h : (cs.drop q).take 11 = aroTail) :
    aroTail <:+ (cs.drop i).take (q + 11 - i) := by
  have h1 : q + 11 - i = (q - i) + 11 := by omega
  rw [h1, List.take_add]
  have h2 : (cs.drop i).drop (q - i) = cs.drop q := by
    rw [List.drop_drop]
    congr 1
    omega
  rw [h2, h]
  exact List.suffix_append _ _

theorem scanPos_some (cs : List Char) :
    ∀ (fuel i p e : Nat), scanPos cs i fuel = some (p, e) →
      matchAt cs p = some e ∧ i ≤ p ∧
        ∀ j, i ≤ j → j < p → matchAt cs j = none := by
  intro fuel
  induction fuel with
  | zero => intro i p e h; cases h
  | succ fuel ih =>
    intro i p e h
    simp only [scanPos] at h
    cases hm : matchAt cs i with
    | some e2 =>
      simp only [hm, Option.some.injEq, Prod.mk.injEq] at h
      obtain ⟨rfl, rfl⟩ := h
      exact ⟨hm, Nat.le_refl i, fun j hj1 hj2 => absurd (Nat.lt_of_le_of_lt hj1 hj2) (by omega)⟩
    | none =>
      simp only [hm] at h
      obtain ⟨h1, h2, h3⟩ := ih (i + 1) p e h
      refine ⟨h1, by omega, fun j hj1 hj2 => ?_⟩
      rcases Nat.eq_or_lt_of_le hj1 with rfl | hj
      · exact hm
      · exact h3 j hj hj2

theorem scanPos_none (cs : List Char) :
    ∀ (fuel i : Nat), (∀ j, i ≤ j → j < i + fuel → matchAt cs j = none) →
      scanPos cs i fuel = none := by
  intro fuel
  induction fuel with
  | zero => intro i _; rfl
  | succ fuel ih =>
    intro i h
    simp only [scanPos]
    rw [h i (Nat.le_refl i) (by omega)]
    exact ih (i + 1) (fun j hj1 hj2 => h j (by omega) (by omega))

/-- C9: every value returned by search_aroflo_email_in_page ends with the
literal .aroflo.com, and is the text of the match of the regex at the
leftmost matching start position in the page source (no earlier position
admits a match); when no position of the page admits a match the search
returns none rather than raising. -/
theorem search_aroflo_c9 :
    ∀ (page s : String),
      (search_aroflo_email_in_page page = some s →
        aroTail <:+ s.data ∧
        ∃ i e, matchAt page.data i = some e ∧
          s.data = (page.data.drop i).take (e - i) ∧
          ∀ j, j < i → matchAt page.data j = none) ∧
      ((∀ i, i ≤ page.data.length → matchAt page.data i = none) →
        search_aroflo_email_in_page page = none) := by
  intro page s
  constructor
  · intro h
    unfold search_aroflo_email_in_page at h
    cases hscan : scanPos page.data 0 (page.data.length + 1) with
    | none => rw [hscan] at h; cases h
    | some pe =>
      obtain ⟨p, e⟩ := pe
      rw [hscan] at h
      have hs : s.data = (page.data.drop p).take (e - p) := by
        injection h with h2
        rw [← h2]
      obtain ⟨hm, _, hmin⟩ := scanPos_some page.data _ 0 p e hscan
      obtain ⟨q, hq1, hq2, rfl⟩ := matchAt_some page.data p e hm
      refine ⟨?_, p, q + 11, hm, hs, fun j hj => hmin j (Nat.zero_le j) hj⟩
      rw [hs]
      exact slice_tail_suffix page.data p q hq1 (tryTail_take page.data q hq2)
  · intro hall
    unfold search_aroflo_email_in_page
    rw [scanPos_none page.data (page.data.length + 1) 0
      (fun j _ hj2 => hall j (by omega))]

theorem search_aroflo_c9_wit :
    aroTail <:+ ("a@x.aroflo.com").data ∧
    search_aroflo_email_in_page ("hello") = none :=
  ⟨((search_aroflo_c9 ("see a@x.aroflo.com!") ("a@x.aroflo.com")).1 (by decide)).1,
   (search_aroflo_c9 ("hello") ("")).2 (by decide)⟩
